import Mathlib

/-!
Shallow embedding of `PO.py` (Purchase Order reader, a Streamlit script).

The script's helpers become pure functions; the module-level widget handlers
(upload branch, query submission, feedback submission) become functions from
their inputs and the relevant ambient state (temporary files on disk, the
feedback log contents) to results.  Messages shown to the user through
`st.error` / `st.warning` are collected in `messages` lists.  External
libraries are parameters: `parse` stands for `fitz.open` plus per-page
`get_text` (the list of page texts in physical order, or a raised error),
`svc` stands for `genai`'s `generate_content` (generated text, or a raised
failure carrying a message).  An uncaught Python exception is modelled as an
explicit `crash` outcome.
-/

namespace PO

/-- An uploaded document as the file uploader delivers it: declared media
type (`uploaded_file.type`) and raw content bytes (`uploaded_file.getvalue()`
/ `uploaded_file.read()`). -/
structure UploadedFile where
  type : String
  data : List Nat
deriving Repr, DecidableEq

/-- One element of the `image_parts` list handed to the Gemini API: a dict
with keys `mime_type` and `data` (PO.py lines 35-40 and line 89). -/
structure Part where
  mime_type : String
  data : List Nat
deriving Repr, DecidableEq

/-- UTF-8 encoding of one code point, as byte values. -/
def utf8EncodeCharN (n : Nat) : List Nat :=
  if n < 128 then [n]
  else if n < 2048 then [192 + n / 64, 128 + n % 64]
  else if n < 65536 then [224 + n / 4096, 128 + n / 64 % 64, 128 + n % 64]
  else [240 + n / 262144, 128 + n / 4096 % 64, 128 + n / 64 % 64, 128 + n % 64]

/-- Python `s.encode()`: the UTF-8 bytes of a string. -/
def pyEncode (s : String) : List Nat :=
  (s.data.map (fun c => utf8EncodeCharN c.toNat)).flatten

/-- PO.py `input_image_setup` (lines 30-47): wrap the uploaded file into a
singleton `image_parts` list carrying its declared mime type and its raw
bytes unchanged; when no file is present, warn and return `None`.  First
component: the returned value; second: messages shown to the user. -/
def input_image_setup (uploaded_file : Option UploadedFile) :
    Option (List Part) × List String :=
  match uploaded_file with
  | some f => (some [{ mime_type := f.type, data := f.data }], [])
  | none => (none, ["No file uploaded."])

/-- Name given to the fresh temporary file that
`tempfile.NamedTemporaryFile(delete=False, suffix=".pdf")` creates. -/
def freshTempName (fs : List String) : String :=
  "tmp" ++ toString fs.length ++ ".pdf"

/-- Result of `process_pdf`: the returned text (None on a caught parse
error), the temporary files on disk after the call, and the messages shown. -/
structure PdfResult where
  pdf_text : Option String
  tempFiles : List String
  messages : List String
deriving Repr, DecidableEq

/-- PO.py `process_pdf` (lines 50-62): create a temporary file with
`delete=False`, write the uploaded bytes to it, open it with fitz and
concatenate every page's text in page order (`pdf_text += page.get_text`),
catching any exception into an error message and a `None` result.  The
`with` block closes the temporary file but, because of `delete=False`, never
removes it, and no other statement removes it either, on either path. -/
def process_pdf (parse : List Nat → Except String (List String))
    (uploaded_file : UploadedFile) (fs : List String) : PdfResult :=
  let name := freshTempName fs
  let fs1 := fs ++ [name]
  match parse uploaded_file.data with
  | Except.ok pages =>
      { pdf_text := some (pages.foldl (fun acc p => acc ++ p) ""),
        tempFiles := fs1, messages := [] }
  | Except.error e =>
      { pdf_text := none, tempFiles := fs1,
        messages := ["Error processing PDF: " ++ e] }

/-- Outcome of the module-level upload branch: either the run completes with
the final values of the `image_data` and `pdf_text` variables, or it raises
an uncaught exception. -/
inductive NormOutcome where
  | ok (image_data : Option (List Part)) (pdf_text : Option String)
  | crash (exn : String)
deriving Repr, DecidableEq

/-- State after the upload branch runs. -/
structure UploadResult where
  outcome : NormOutcome
  tempFiles : List String
  messages : List String
deriving Repr, DecidableEq

/-- PO.py upload handler (lines 72-89).  For a declared image type, display
the image and build `image_data` via `input_image_setup`; for
`application/pdf`, run `process_pdf` and then evaluate
`pdf_text.encode()` (line 89) unconditionally — an uncaught
`AttributeError` when `process_pdf` returned `None`; for any other declared
type there is no `else` branch: both variables stay `None` and nothing is
reported.  Pure display calls (`st.image`, the preview `st.text_area`) are
not modelled; `PIL.Image.open` is display-path glue and is abstracted as
non-failing. -/
def upload_branch (parse : List Nat → Except String (List String))
    (uploaded_file : Option UploadedFile) (fs : List String) : UploadResult :=
  match uploaded_file with
  | none => { outcome := NormOutcome.ok none none, tempFiles := fs, messages := [] }
  | some f =>
      if f.type ∈ ["image/jpeg", "image/png", "image/jpg"] then
        match input_image_setup (some f) with
        | (img, msgs) =>
            { outcome := NormOutcome.ok img none, tempFiles := fs, messages := msgs }
      else if f.type = "application/pdf" then
        match (process_pdf parse f fs).pdf_text with
        | some t =>
            { outcome := NormOutcome.ok
                (some [{ mime_type := "text/plain", data := pyEncode t }]) (some t),
              tempFiles := (process_pdf parse f fs).tempFiles,
              messages := (process_pdf parse f fs).messages }
        | none =>
            { outcome := NormOutcome.crash
                "AttributeError: \x27NoneType\x27 object has no attribute \x27encode\x27",
              tempFiles := (process_pdf parse f fs).tempFiles,
              messages := (process_pdf parse f fs).messages }
      else
        { outcome := NormOutcome.ok none none, tempFiles := fs, messages := [] }

/-- One element of the content list passed to `model.generate_content`. -/
inductive ReqItem where
  | text (s : String)
  | part (p : Part)
deriving Repr, DecidableEq

/-- Result of `get_gemini_response`: the content list actually passed to
`generate_content` (None when the call was never reached), the returned
value of the function, and the messages shown. -/
structure GeminiResult where
  request : Option (List ReqItem)
  response : Option String
  messages : List String
deriving Repr, DecidableEq

/-- PO.py `get_gemini_response` (lines 20-27): build the content list
`[input_text, image_parts[0], prompt]` and call `generate_content`; every
exception — including the `IndexError` that `image_parts[0]` raises on an
empty list — is caught, shown as an error message carrying the underlying
text, and `None` is returned.  The function has no credential parameter and
consults none: nothing in its body depends on `api_key`. -/
def get_gemini_response (svc : List ReqItem → Except String String)
    (input_text : String) (image_parts : List Part) (prompt : String) : GeminiResult :=
  match image_parts with
  | [] =>
      { request := none, response := none,
        messages := ["Error with Gemini model: list index out of range"] }
  | p0 :: _ =>
      let req := [ReqItem.text input_text, ReqItem.part p0, ReqItem.text prompt]
      match svc req with
      | Except.ok t => { request := some req, response := some t, messages := [] }
      | Except.error e =>
          { request := some req, response := none,
            messages := ["Error with Gemini model: " ++ e] }

/-- PO.py lines 10-17: read `GOOGLE_API_KEY` from the environment; when it is
absent show an error message, otherwise call `genai.configure`.  First
component: whether `configure` ran; second: messages shown.  Nothing else is
gated on the key. -/
def startup (api_key : Option String) : Bool × List String :=
  match api_key with
  | none => (false, ["Google API Key is not set. Check your .env file."])
  | some _ => (true, [])

/-- Python truthiness of the `image_data` variable (an optional list: `None`
and the empty list are falsy). -/
def truthyParts : Option (List Part) → Bool
  | none => false
  | some l => !l.isEmpty

/-- PO.py query-submission handler (lines 105-116): when both `image_data`
and `query` are truthy, bind the local variable `response` to the model
call's result and display it (warning when it is `None`); otherwise warn and
leave `response` unassigned.  First component: the binding of `response`
after the block (`none` = the variable was never assigned). -/
def submit_block (svc : List ReqItem → Except String String)
    (image_data : Option (List Part)) (query : String) (prompt : String) :
    Option GeminiResult × List String :=
  if truthyParts image_data ∧ query ≠ "" then
    let r := get_gemini_response svc query (image_data.getD []) prompt
    match r.response with
    | some _ => (some r, r.messages)
    | none => (some r, r.messages ++ ["No response received. Check model setup or query."])
  else
    (none, ["Please upload an image or PDF and enter a query."])

/-- Hexadecimal digit character, for Python repr \x escapes. -/
def hexDig : Nat → Char
  | 0 => '0'
  | 1 => '1'
  | 2 => '2'
  | 3 => '3'
  | 4 => '4'
  | 5 => '5'
  | 6 => '6'
  | 7 => '7'
  | 8 => '8'
  | 9 => '9'
  | 10 => 'a'
  | 11 => 'b'
  | 12 => 'c'
  | 13 => 'd'
  | 14 => 'e'
  | _ => 'f'

/-- Two-digit hexadecimal rendering of a byte value. -/
def hex2 (n : Nat) : List Char :=
  [hexDig (n / 16 % 16), hexDig (n % 16)]

/-- Python repr escaping of one character, given the chosen quote character:
backslash and the quote are backslash-escaped, newline, carriage return and
tab become \n, \r, \t, other control characters become \xhh, and everything
else passes through unchanged. -/
def pyReprChar (q : Char) (c : Char) : List Char :=
  if c = Char.ofNat 92 then [Char.ofNat 92, Char.ofNat 92]
  else if c = q then [Char.ofNat 92, q]
  else if c = Char.ofNat 10 then [Char.ofNat 92, 'n']
  else if c = Char.ofNat 13 then [Char.ofNat 92, 'r']
  else if c = Char.ofNat 9 then [Char.ofNat 92, 't']
  else if c.toNat < 32 ∨ c.toNat = 127 then [Char.ofNat 92, 'x'] ++ hex2 c.toNat
  else [c]

/-- Quote character chosen by Python repr: the double quote exactly when the
string contains a single quote and no double quote. -/
def pyQuote (s : List Char) : Char :=
  if Char.ofNat 39 ∈ s ∧ ¬ Char.ofNat 34 ∈ s then Char.ofNat 34 else Char.ofNat 39

/-- Python `repr` of a str, over its character list. -/
def pyReprStr (s : List Char) : List Char :=
  pyQuote s :: ((s.map (pyReprChar (pyQuote s))).flatten ++ [pyQuote s])

/-- Python repr of the `response` value in the feedback dict: a str, or
`None`. -/
def pyReprOptStr : Option (List Char) → List Char
  | none => "None".data
  | some s => pyReprStr s

/-- Python `str(feedback_log)` for the dict literal built at PO.py lines
127-132: insertion-ordered keys `query`, `response`, `validation`,
`feedback`, values rendered by repr. -/
def feedback_log_str (query : List Char) (response : Option (List Char))
    (validation feedback : List Char) : List Char :=
  "\x7b\x27query\x27: ".data ++ pyReprStr query ++
    ", \x27response\x27: ".data ++ pyReprOptStr response ++
    ", \x27validation\x27: ".data ++ pyReprStr validation ++
    ", \x27feedback\x27: ".data ++ pyReprStr feedback ++ "\x7d".data

/-- Outcome of the feedback handler: the serialized line was appended, or the
run raised an uncaught exception. -/
inductive FeedbackOutcome where
  | logged (line : List Char)
  | crash (exn : String)
deriving Repr, DecidableEq

/-- PO.py feedback handler (lines 125-136): build the `feedback_log` dict —
which raises an uncaught `NameError` when the local variable `response` was
never assigned in this run — then open the log file in append mode and write
`str(feedback_log) + "\n"`.  `responseVar` is the binding of `response`
(`none` = unassigned); `log` is the log file contents before; the second
component is the contents after. -/
def feedback_submit (responseVar : Option (Option (List Char)))
    (query validation feedback : List Char) (log : List Char) :
    FeedbackOutcome × List Char :=
  match responseVar with
  | none => (FeedbackOutcome.crash "NameError: name \x27response\x27 is not defined", log)
  | some r =>
      let line := feedback_log_str query r validation feedback
      (FeedbackOutcome.logged line, log ++ line ++ [Char.ofNat 10])

/-- Whether `pat` begins `l` (element-wise). -/
def beginsWith : List Char → List Char → Bool
  | [], _ => true
  | _ :: _, [] => false
  | a :: as, b :: bs => a = b && beginsWith as bs

/-- Whether `pat` occurs as a contiguous run inside `l`. -/
def occursIn (pat l : List Char) : Bool :=
  (List.range (l.length + 1)).any (fun i => beginsWith pat (l.drop i))

/-- Number of newline characters in a character list. -/
def countNl (l : List Char) : Nat :=
  l.count (Char.ofNat 10)

/-- Printable-ASCII character that repr renders verbatim: at least space,
below DEL, not an apostrophe and not a backslash. -/
def plainChar (c : Char) : Bool :=
  decide (32 ≤ c.toNat) && decide (c.toNat < 127) &&
    !(c = Char.ofNat 39 : Bool) && !(c = Char.ofNat 92 : Bool)

/-- Ordered, separator-free concatenation of page texts. -/
def concatPages : List String → String
  | [] => ""
  | p :: ps => p ++ concatPages ps

theorem foldl_append_eq_concatPages (pages : List String) :
    ∀ acc : String, pages.foldl (fun a p => a ++ p) acc = acc ++ concatPages pages := by
  induction pages with
  | nil => intro acc; simp [concatPages, List.foldl, String.append_empty]
  | cons p ps ih =>
      intro acc
      simp only [concatPages, List.foldl]
      rw [ih, String.append_assoc]

/-- C7: for every PDF whose pages parse, in order, to the given page texts,
`process_pdf` returns exactly their ordered concatenation with no separator
inserted between pages and no reordering. -/
theorem C7_pdf_concatenation (parse : List Nat → Except String (List String))
    (f : UploadedFile) (fs : List String) (pages : List String)
    (hp : parse f.data = Except.ok pages) :
    (process_pdf parse f fs).pdf_text = some (concatPages pages) := by
  unfold process_pdf
  rw [hp]
  simp only [Option.some.injEq]
  rw [foldl_append_eq_concatPages]
  exact String.empty_append _

/-- C7 witness: the 3-page scenario yields exactly
"Page1 textPage2 textPage3 text". -/
theorem C7_witness :
    (process_pdf (fun _ => Except.ok ["Page1 text", "Page2 text", "Page3 text"])
        { type := "application/pdf", data := [37, 80] } []).pdf_text
      = some "Page1 textPage2 textPage3 text" :=
  Eq.trans (C7_pdf_concatenation _ _ _ _ rfl) (by decide)

/-- C4 counterexample: on a concrete call, the temporary on-disk copy
(tmp0.pdf) is still present when `process_pdf` returns — not removed — on
the success path as well as on the failure path. -/
theorem C4_counterexample :
    (process_pdf (fun _ => Except.ok ["x"])
        { type := "application/pdf", data := [37] } []).tempFiles = ["tmp0.pdf"]
    ∧ (process_pdf (fun _ => Except.error "cannot open broken document")
        { type := "application/pdf", data := [37] } []).tempFiles = ["tmp0.pdf"] := by
  constructor <;> rfl

/-- C4 (amended): `NamedTemporaryFile(delete=False)` creates the temporary
copy and no statement removes it: after every call, on success and failure
alike, the temporary files on disk are the previous ones plus the fresh copy
— the artifact is leaked across calls, never removed. -/
theorem C4_temp_file_leaked (parse : List Nat → Except String (List String))
    (f : UploadedFile) (fs : List String) :
    (process_pdf parse f fs).tempFiles = fs ++ [freshTempName fs] := by
  unfold process_pdf
  cases parse f.data <;> rfl

/-- C5 counterexample: with no credential configured, startup merely shows a
message and `configure` never runs, yet invoking the model client still
issues a request to the remote service, whose failure is then reported as the
generic model error — not as a configuration error raised before the call. -/
theorem C5_counterexample :
    startup none = (false, ["Google API Key is not set. Check your .env file."])
    ∧ (get_gemini_response (fun _ => Except.error "API key not valid") "q"
        [{ mime_type := "image/png", data := [1] }] "p").request
      = some [ReqItem.text "q", ReqItem.part { mime_type := "image/png", data := [1] },
          ReqItem.text "p"]
    ∧ (get_gemini_response (fun _ => Except.error "API key not valid") "q"
        [{ mime_type := "image/png", data := [1] }] "p").messages
      = ["Error with Gemini model: API key not valid"] := by
  refine ⟨rfl, rfl, rfl⟩

/-- C5 (amended): a missing credential only produces a startup error message;
it does not prevent model calls: `get_gemini_response` consults no
credential, and on any nonempty parts list it always issues the request to
the remote service, whatever the service then does. -/
theorem C5_no_credential_gate (svc : List ReqItem → Except String String)
    (q prompt : String) (p0 : Part) (rest : List Part) :
    startup none = (false, ["Google API Key is not set. Check your .env file."])
    ∧ (get_gemini_response svc q (p0 :: rest) prompt).request
      = some [ReqItem.text q, ReqItem.part p0, ReqItem.text prompt] := by
  refine ⟨rfl, ?_⟩
  cases hsvc : svc [ReqItem.text q, ReqItem.part p0, ReqItem.text prompt] <;>
    simp [get_gemini_response, hsvc]

/-- C8: a failing remote call is caught: the error message shown carries the
underlying failure text and the caller receives an absent response rather
than a propagated fault; a successful call returns the generated text. -/
theorem C8_model_call_error_handling
    (svcF svcS : List ReqItem → Except String String)
    (q prompt e t : String) (p0 : Part) (rest : List Part)
    (hF : svcF [ReqItem.text q, ReqItem.part p0, ReqItem.text prompt] = Except.error e)
    (hS : svcS [ReqItem.text q, ReqItem.part p0, ReqItem.text prompt] = Except.ok t) :
    (get_gemini_response svcF q (p0 :: rest) prompt).response = none
    ∧ (get_gemini_response svcF q (p0 :: rest) prompt).messages
      = ["Error with Gemini model: " ++ e]
    ∧ (get_gemini_response svcS q (p0 :: rest) prompt).response = some t := by
  refine ⟨?_, ?_, ?_⟩ <;> simp [get_gemini_response, hF, hS]

/-- C8 witness: concrete failing and succeeding services. -/
theorem C8_witness :
    (get_gemini_response (fun _ => Except.error "quota exceeded") "q"
        [{ mime_type := "image/png", data := [1] }] "p").response = none
    ∧ (get_gemini_response (fun _ => Except.error "quota exceeded") "q"
        [{ mime_type := "image/png", data := [1] }] "p").messages
      = ["Error with Gemini model: quota exceeded"]
    ∧ (get_gemini_response (fun _ => Except.ok "The total is 500") "q"
        [{ mime_type := "image/png", data := [1] }] "p").response
      = some "The total is 500" :=
  C8_model_call_error_handling (fun _ => Except.error "quota exceeded")
    (fun _ => Except.ok "The total is 500") "q" "p" "quota exceeded"
    "The total is 500" { mime_type := "image/png", data := [1] } [] rfl rfl

/-- C10: the model client reads only element 0 of the parts list — two part
lists with the same head produce the same issued request, the same response
and the same messages; elements past index 0 never influence the outcome. -/
theorem C10_only_first_part (svc : List ReqItem → Except String String)
    (q prompt : String) (l1 l2 : List Part) (h : l1.head? = l2.head?) :
    get_gemini_response svc q l1 prompt = get_gemini_response svc q l2 prompt := by
  cases l1 with
  | nil =>
      cases l2 with
      | nil => rfl
      | cons b bs => simp [List.head?] at h
  | cons a as =>
      cases l2 with
      | nil => simp [List.head?] at h
      | cons b bs =>
          simp only [List.head?, Option.some.injEq] at h
          subst h
          rfl

/-- C1 counterexample: a file declared "text/plain" is silently ignored —
the upload branch emits no message whatsoever (in particular no
UnsupportedMediaTypeError is reported) instead of failing with a named
error; the unrecognized type passes through silently. -/
theorem C1_counterexample :
    upload_branch (fun _ => Except.error "unused")
        (some { type := "text/plain", data := [104, 105] }) []
      = { outcome := NormOutcome.ok none none, tempFiles := [], messages := [] } := by
  rfl

/-- C1 (amended): for every declared media type outside the supported set the
upload branch produces no normalized unit and a later query submission makes
no model call, but nothing fails: there is no else branch, so the
unrecognized type is passed over silently with no error of any kind, and the
submission only shows the generic upload warning. -/
theorem C1_unsupported_type_silent (parse : List Nat → Except String (List String))
    (f : UploadedFile) (fs : List String) (svc : List ReqItem → Except String String)
    (q prompt : String)
    (h1 : f.type ∉ ["image/jpeg", "image/png", "image/jpg"])
    (h2 : f.type ≠ "application/pdf") :
    upload_branch parse (some f) fs
      = { outcome := NormOutcome.ok none none, tempFiles := fs, messages := [] }
    ∧ submit_block svc none q prompt
      = (none, ["Please upload an image or PDF and enter a query."]) := by
  constructor
  · simp [upload_branch, h1, h2]
  · simp [submit_block, truthyParts]

/-- C1 witness: the amended statement at the text/plain scenario. -/
theorem C1_witness :
    upload_branch (fun _ => Except.ok []) (some { type := "text/plain", data := [104] }) []
      = { outcome := NormOutcome.ok none none, tempFiles := [], messages := [] }
    ∧ submit_block (fun _ => Except.ok "a") none "Total?" "p"
      = (none, ["Please upload an image or PDF and enter a query."]) :=
  C1_unsupported_type_silent _ _ _ _ _ _ (by decide) (by decide)

/-- C2: two inputs where an error escapes as an uncaught fault instead of
becoming a user-visible message: a PDF whose extraction fails makes line 89
evaluate `None.encode()` — an uncaught AttributeError — and a feedback
submission in a run where `response` was never assigned makes line 129 read
an unassigned variable — an uncaught NameError. -/
theorem C2_uncaught_faults :
    (upload_branch (fun _ => Except.error "cannot open broken document")
        (some { type := "application/pdf", data := [37, 80, 68, 70] }) []).outcome
      = NormOutcome.crash
          "AttributeError: \x27NoneType\x27 object has no attribute \x27encode\x27"
    ∧ (feedback_submit none "Total?".data "Yes".data [] []).1
      = FeedbackOutcome.crash "NameError: name \x27response\x27 is not defined" := by
  constructor <;> rfl

/-- C3 counterexample: a 0-page PDF extracts to the empty string and the
upload branch then produces a Text-kind unit with empty bytes — it is not
treated as an extraction failure. -/
theorem C3_counterexample :
    (upload_branch (fun _ => Except.ok [])
        (some { type := "application/pdf", data := [37, 80, 68, 70] }) []).outcome
      = NormOutcome.ok (some [{ mime_type := "text/plain", data := [] }]) (some "") := by
  rfl

/-- C3 (amended): extraction that succeeds with empty text (for example a
0-page PDF) is not treated as a failure: the normalizer produces a Text-kind
unit with empty bytes.  Only a raised extraction error yields no unit — and
then line 89 crashes instead of reporting. -/
theorem C3_empty_extraction_unit (parse : List Nat → Except String (List String))
    (f : UploadedFile) (fs : List String) (pages : List String)
    (hty : f.type = "application/pdf") (hp : parse f.data = Except.ok pages)
    (he : concatPages pages = "") :
    (upload_branch parse (some f) fs).outcome
      = NormOutcome.ok (some [{ mime_type := "text/plain", data := [] }]) (some "") := by
  have htext : (process_pdf parse f fs).pdf_text = some "" := by
    unfold process_pdf
    rw [hp]
    simp only [Option.some.injEq]
    rw [foldl_append_eq_concatPages, he]
    exact String.append_empty _
  have hnotimg : f.type ∉ ["image/jpeg", "image/png", "image/jpg"] := by
    rw [hty]; decide
  simp only [upload_branch]
  rw [if_neg hnotimg, if_pos hty, htext]
  rfl

/-- C3 witness: the amended statement at a concrete 0-page PDF. -/
theorem C3_witness :
    concatPages [] = ""
    ∧ (upload_branch (fun _ => Except.ok [])
        (some { type := "application/pdf", data := [37] }) []).outcome
      = NormOutcome.ok (some [{ mime_type := "text/plain", data := [] }]) (some "") :=
  ⟨rfl, C3_empty_extraction_unit _ _ _ [] rfl rfl rfl⟩

/-- C6: for every uploaded document whose declared media type is a supported
image type, the adapter yields a singleton parts list whose mime type equals
the declared type and whose data equals the raw bytes, byte for byte, with
no transformation; the upload branch installs exactly that unit. -/
theorem C6_image_adapter_identity (parse : List Nat → Except String (List String))
    (f : UploadedFile) (fs : List String)
    (h : f.type ∈ ["image/jpeg", "image/png", "image/jpg"]) :
    input_image_setup (some f) = (some [{ mime_type := f.type, data := f.data }], [])
    ∧ upload_branch parse (some f) fs
      = { outcome := NormOutcome.ok (some [{ mime_type := f.type, data := f.data }]) none,
          tempFiles := fs, messages := [] } := by
  refine ⟨rfl, ?_⟩
  simp only [upload_branch]
  rw [if_pos h]
  rfl

/-- C6 witness: a concrete PNG upload passes through byte for byte. -/
theorem C6_witness :
    ({ type := "image/png", data := [137, 80, 78, 71] } : UploadedFile).type
        ∈ ["image/jpeg", "image/png", "image/jpg"]
    ∧ upload_branch (fun _ => Except.error "unused")
        (some { type := "image/png", data := [137, 80, 78, 71] }) []
      = { outcome := NormOutcome.ok
            (some [{ mime_type := "image/png", data := [137, 80, 78, 71] }]) none,
          tempFiles := [], messages := [] } :=
  ⟨by decide, (C6_image_adapter_identity _ _ _ (by decide)).2⟩

/-- C10 witness: appending a second part with the same head changes nothing. -/
theorem C10_witness :
    ([{ mime_type := "image/png", data := [1] }] : List Part).head?
      = ([{ mime_type := "image/png", data := [1] },
          { mime_type := "image/jpeg", data := [2, 3] }] : List Part).head?
    ∧ get_gemini_response (fun _ => Except.ok "ans") "q"
        [{ mime_type := "image/png", data := [1] }] "p"
      = get_gemini_response (fun _ => Except.ok "ans") "q"
        [{ mime_type := "image/png", data := [1] },
          { mime_type := "image/jpeg", data := [2, 3] }] "p" :=
  ⟨rfl, C10_only_first_part _ _ _ _ _ rfl⟩

theorem hexDig_ne_nl (m : Nat) : hexDig m ≠ Char.ofNat 10 := by
  unfold hexDig
  split <;> decide

theorem nl_not_mem_pyReprChar (q c : Char) (hq : q ≠ Char.ofNat 10) :
    Char.ofNat 10 ∉ pyReprChar q c := by
  unfold pyReprChar
  split
  · decide
  · split
    · intro hmem
      rcases List.mem_cons.mp hmem with h | hmem2
      · exact absurd h (by decide)
      · rcases List.mem_cons.mp hmem2 with h | hmem3
        · exact hq h.symm
        · exact List.not_mem_nil _ hmem3
    · split
      · decide
      · split
        · decide
        · split
          · decide
          · split
            · intro hmem
              simp only [hex2, List.cons_append, List.nil_append] at hmem
              rcases List.mem_cons.mp hmem with h | hmem2
              · exact absurd h (by decide)
              · rcases List.mem_cons.mp hmem2 with h | hmem3
                · exact absurd h (by decide)
                · rcases List.mem_cons.mp hmem3 with h | hmem4
                  · exact hexDig_ne_nl _ h.symm
                  · rcases List.mem_cons.mp hmem4 with h | hmem5
                    · exact hexDig_ne_nl _ h.symm
                    · exact List.not_mem_nil _ hmem5
            · rename_i h1 h2 h3 h4 h5 h6
              intro hmem
              rcases List.mem_cons.mp hmem with h | hmem2
              · exact h3 h.symm
              · exact List.not_mem_nil _ hmem2

theorem nl_ne_pyQuote (s : List Char) : pyQuote s ≠ Char.ofNat 10 := by
  unfold pyQuote
  split <;> decide

theorem nl_not_mem_pyReprStr (s : List Char) : Char.ofNat 10 ∉ pyReprStr s := by
  unfold pyReprStr
  intro hmem
  rcases List.mem_cons.mp hmem with h | hmem2
  · exact nl_ne_pyQuote s h.symm
  rcases List.mem_append.mp hmem2 with h | h
  · rcases List.mem_flatten.mp h with ⟨l, hl, hmem3⟩
    rcases List.mem_map.mp hl with ⟨c, _, rfl⟩
    exact nl_not_mem_pyReprChar _ c (nl_ne_pyQuote s) hmem3
  · exact nl_ne_pyQuote s (List.mem_singleton.mp h).symm

theorem nl_not_mem_pyReprOptStr (r : Option (List Char)) :
    Char.ofNat 10 ∉ pyReprOptStr r := by
  cases r with
  | none => decide
  | some s => exact nl_not_mem_pyReprStr s

theorem nl_not_mem_feedback_log_str (q : List Char) (r : Option (List Char))
    (v f : List Char) : Char.ofNat 10 ∉ feedback_log_str q r v f := by
  unfold feedback_log_str
  intro hmem
  simp only [List.mem_append] at hmem
  rcases hmem with ((((((((h | h) | h) | h) | h) | h) | h) | h) | h)
  · exact absurd h (by decide)
  · exact nl_not_mem_pyReprStr q h
  · exact absurd h (by decide)
  · exact nl_not_mem_pyReprOptStr r h
  · exact absurd h (by decide)
  · exact nl_not_mem_pyReprStr v h
  · exact absurd h (by decide)
  · exact nl_not_mem_pyReprStr f h
  · exact absurd h (by decide)

theorem beginsWith_append (pat post : List Char) :
    beginsWith pat (pat ++ post) = true := by
  induction pat with
  | nil => rfl
  | cons a as ih => simp [beginsWith, ih]

theorem occursIn_of_decomp (pre pat post : List Char) :
    occursIn pat (pre ++ pat ++ post) = true := by
  unfold occursIn
  rw [List.any_eq_true]
  refine ⟨pre.length, List.mem_range.mpr ?_, ?_⟩
  · simp [List.length_append]
    omega
  · rw [List.append_assoc, List.drop_left]
    exact beginsWith_append pat post

theorem plainChar_props (c : Char) (hc : plainChar c = true) :
    32 ≤ c.toNat ∧ c.toNat < 127 ∧ c ≠ Char.ofNat 39 ∧ c ≠ Char.ofNat 92 := by
  unfold plainChar at hc
  simp only [Bool.and_eq_true, decide_eq_true_eq, Bool.not_eq_true,
    Bool.not_eq_true', decide_eq_false_iff_not] at hc
  exact ⟨hc.1.1.1, hc.1.1.2, hc.1.2, hc.2⟩

theorem pyReprChar_plain (c : Char) (hc : plainChar c = true) :
    pyReprChar (Char.ofNat 39) c = [c] := by
  obtain ⟨h1, h2, h3, h4⟩ := plainChar_props c hc
  unfold pyReprChar
  rw [if_neg h4, if_neg h3,
    if_neg (fun h => absurd h1 (by rw [h]; decide)),
    if_neg (fun h => absurd h1 (by rw [h]; decide)),
    if_neg (fun h => absurd h1 (by rw [h]; decide)),
    if_neg (fun h => by rcases h with h | h <;> omega)]

theorem pyQuote_plain (s : List Char) (hs : s.all plainChar = true) :
    pyQuote s = Char.ofNat 39 := by
  unfold pyQuote
  have hcond : ¬(Char.ofNat 39 ∈ s ∧ ¬ Char.ofNat 34 ∈ s) := by
    rintro ⟨h39, -⟩
    exact absurd (List.all_eq_true.mp hs _ h39) (by decide)
  rw [if_neg hcond]

theorem flatten_map_pyReprChar (s : List Char) (hs : s.all plainChar = true) :
    (s.map (pyReprChar (Char.ofNat 39))).flatten = s := by
  induction s with
  | nil => rfl
  | cons c cs ih =>
      rw [List.all_cons, Bool.and_eq_true] at hs
      simp only [List.map_cons, List.flatten_cons]
      rw [pyReprChar_plain c hs.1, ih hs.2]
      rfl

theorem pyReprStr_plain (s : List Char) (hs : s.all plainChar = true) :
    pyReprStr s = Char.ofNat 39 :: (s ++ [Char.ofNat 39]) := by
  unfold pyReprStr
  rw [pyQuote_plain s hs, flatten_map_pyReprChar s hs]

theorem occursIn_plain_value (x y v : List Char) (hv : v.all plainChar = true) :
    occursIn v (x ++ pyReprStr v ++ y) = true := by
  rw [pyReprStr_plain v hv]
  have h : x ++ (Char.ofNat 39 :: (v ++ [Char.ofNat 39])) ++ y
      = (x ++ [Char.ofNat 39]) ++ v ++ ([Char.ofNat 39] ++ y) := by
    simp [List.append_assoc]
  rw [h]
  exact occursIn_of_decomp _ _ _

/-- C9 counterexample: with feedback value "a\nb" the handler still appends a
single line, but that line does not contain the feedback field value byte for
byte — the newline inside the value is escaped to backslash-n — refuting the
claim for arbitrary field strings. -/
theorem C9_counterexample :
    (feedback_submit (some (some "$500".data)) "Total?".data "Yes".data "a\nb".data []).2
      = feedback_log_str "Total?".data (some "$500".data) "Yes".data "a\nb".data
          ++ [Char.ofNat 10]
    ∧ occursIn "a\nb".data
        (feedback_log_str "Total?".data (some "$500".data) "Yes".data "a\nb".data)
      = false := by
  constructor
  · rfl
  · decide

/-- C9 (amended): every feedback submission appends exactly the serialized
record plus one newline: the new log contents are the old contents, byte for
byte unchanged, followed by one gained line that itself contains no newline
(so the newline count rises by exactly one); when the four field values are
printable ASCII without apostrophes or backslashes, the gained line contains
all four values verbatim. -/
theorem C9_feedback_append (q v f r log : List Char)
    (hq : q.all plainChar = true) (hr : r.all plainChar = true)
    (hv : v.all plainChar = true) (hf : f.all plainChar = true) :
    (feedback_submit (some (some r)) q v f log).2
      = log ++ feedback_log_str q (some r) v f ++ [Char.ofNat 10]
    ∧ countNl (feedback_log_str q (some r) v f) = 0
    ∧ countNl ((feedback_submit (some (some r)) q v f log).2) = countNl log + 1
    ∧ occursIn q (feedback_log_str q (some r) v f) = true
    ∧ occursIn r (feedback_log_str q (some r) v f) = true
    ∧ occursIn v (feedback_log_str q (some r) v f) = true
    ∧ occursIn f (feedback_log_str q (some r) v f) = true := by
  have h0 : countNl (feedback_log_str q (some r) v f) = 0 :=
    List.count_eq_zero.mpr (nl_not_mem_feedback_log_str q (some r) v f)
  refine ⟨rfl, h0, ?_, ?_, ?_, ?_, ?_⟩
  · show countNl (log ++ feedback_log_str q (some r) v f ++ [Char.ofNat 10])
      = countNl log + 1
    unfold countNl at h0 ⊢
    rw [List.count_append, List.count_append, h0]
    simp
  · have hd : feedback_log_str q (some r) v f
        = "\x7b\x27query\x27: ".data ++ pyReprStr q
          ++ (", \x27response\x27: ".data ++ pyReprStr r ++ ", \x27validation\x27: ".data
              ++ pyReprStr v ++ ", \x27feedback\x27: ".data ++ pyReprStr f
              ++ "\x7d".data) := by
      simp [feedback_log_str, pyReprOptStr, List.append_assoc]
    rw [hd]
    exact occursIn_plain_value _ _ q hq
  · have hd : feedback_log_str q (some r) v f
        = ("\x7b\x27query\x27: ".data ++ pyReprStr q ++ ", \x27response\x27: ".data)
          ++ pyReprStr r
          ++ (", \x27validation\x27: ".data ++ pyReprStr v ++ ", \x27feedback\x27: ".data
              ++ pyReprStr f ++ "\x7d".data) := by
      simp [feedback_log_str, pyReprOptStr, List.append_assoc]
    rw [hd]
    exact occursIn_plain_value _ _ r hr
  · have hd : feedback_log_str q (some r) v f
        = ("\x7b\x27query\x27: ".data ++ pyReprStr q ++ ", \x27response\x27: ".data
            ++ pyReprStr r ++ ", \x27validation\x27: ".data)
          ++ pyReprStr v
          ++ (", \x27feedback\x27: ".data ++ pyReprStr f ++ "\x7d".data) := by
      simp [feedback_log_str, pyReprOptStr, List.append_assoc]
    rw [hd]
    exact occursIn_plain_value _ _ v hv
  · have hd : feedback_log_str q (some r) v f
        = ("\x7b\x27query\x27: ".data ++ pyReprStr q ++ ", \x27response\x27: ".data
            ++ pyReprStr r ++ ", \x27validation\x27: ".data ++ pyReprStr v
            ++ ", \x27feedback\x27: ".data)
          ++ pyReprStr f ++ "\x7d".data := by
      simp [feedback_log_str, pyReprOptStr, List.append_assoc]
    rw [hd]
    exact occursIn_plain_value _ _ f hf

/-- C9 witness: scenario D — query "Total?", response "$500", validation
"Yes", empty feedback — appends exactly one line containing all four values,
with the prior log bytes unchanged. -/
theorem C9_witness :
    ("Total?".data.all plainChar = true)
    ∧ ((feedback_submit (some (some "$500".data)) "Total?".data "Yes".data []
          "old\n".data).2
        = "old\n".data
          ++ feedback_log_str "Total?".data (some "$500".data) "Yes".data []
          ++ [Char.ofNat 10]
      ∧ countNl (feedback_log_str "Total?".data (some "$500".data) "Yes".data []) = 0
      ∧ countNl ((feedback_submit (some (some "$500".data)) "Total?".data "Yes".data []
            "old\n".data).2)
          = countNl "old\n".data + 1
      ∧ occursIn "Total?".data
          (feedback_log_str "Total?".data (some "$500".data) "Yes".data []) = true
      ∧ occursIn "$500".data
          (feedback_log_str "Total?".data (some "$500".data) "Yes".data []) = true
      ∧ occursIn "Yes".data
          (feedback_log_str "Total?".data (some "$500".data) "Yes".data []) = true
      ∧ occursIn ([] : List Char)
          (feedback_log_str "Total?".data (some "$500".data) "Yes".data []) = true) :=
  ⟨by decide, C9_feedback_append "Total?".data "Yes".data [] "$500".data "old\n".data
    (by decide) (by decide) (by decide) (by decide)⟩

end PO
